import Mathlib

set_option maxHeartbeats 1000000

/-!
Verification model of `dynamixel_hardware_interface` (file
`src/dynamixel_hardware_interface/src/dynamixel_hardware_interface.cpp`).

The C++ class `DynamixelHardware` is embedded shallowly: each member
function that the verified properties touch becomes a pure Lean function
over explicit state.  External collaborators (the `Dynamixel` communication
object `dxl_comm_`, the clock, the host control loop) are abstracted as
function parameters: the result of `ReadMultiDxlData()` is a `DxlError`
argument, the per-ID torque map returned by `GetDxlTorqueState()` is a
`List (Nat × Bool)` argument, and wall-clock iteration of the reboot loop
is a `List Bool` of per-iteration attempt outcomes.  IEEE doubles are
modelled as `Rat` (the claims under verification are about data flow and
formula structure, not rounding), and register values that the code uses
as bitmasks ("Hardware Error Status") are modelled as `Nat`.
-/

/-- Communication status of the hardware interface (`dxl_status_` in the
source; enum values `DXL_OK`, `COMM_ERROR`, `HW_ERROR`, `REBOOTING`). -/
inductive DxlStatus where
  | dxlOk
  | commError
  | hwError
  | rebooting
deriving DecidableEq, Repr, Inhabited

/-- Torque-coordination status (`dxl_torque_status_` in the source; enum
values `TORQUE_ENABLED`, `TORQUE_DISABLED`, `REQUESTED_TO_ENABLE`,
`REQUESTED_TO_DISABLE`). -/
inductive TorqueStatus where
  | torqueEnabled
  | torqueDisabled
  | requestedToEnable
  | requestedToDisable
deriving DecidableEq, Repr, Inhabited

/-- Result code of the driver library (`DxlError` in the source).  The
source's many transport-failure codes are collapsed into `commRxFail`:
`CheckError` only ever compares a `DxlError` against `OK`, so the identity
of the non-`OK` transport code is irrelevant to the verified behaviour.
`dlxHardwareError` is the source's `DxlError::DLX_HARDWARE_ERROR`. -/
inductive DxlError where
  | ok
  | commRxFail
  | dlxHardwareError
deriving DecidableEq, Repr, Inhabited

/-- Return code of a read/write tick
(`hardware_interface::return_type::{OK, ERROR}`). -/
inductive ReturnType where
  | ok
  | error
deriving DecidableEq, Repr, Inhabited

/-- One handler group (`HandlerVarType` in the source): an actuator ID, a
name, parallel vectors of interface names and shared numeric value slots.
The C++ stores `std::shared_ptr<double>` slots mutated in place; the model
passes the slot values by value and returns updated copies. -/
structure HandlerVarType (α : Type) where
  id : Nat
  name : String
  interface_name_vec : List String
  value_ptr_vec : List α
deriving DecidableEq, Repr, Inhabited

/-- Fault-monitor state: the communication status `dxl_status_` together
with the per-ID hardware-error bitmask map `dxl_hw_err_` (a `std::map`
modelled as an association list; absent keys read as `0`, mirroring
`std::map::operator[]` default construction). -/
structure FaultState where
  dxl_status : DxlStatus
  dxl_hw_err : List (Nat × Nat)
deriving DecidableEq, Repr, Inhabited

/-- Map update `m[k] = v` of the association-list model of `std::map`. -/
def setAssoc (m : List (Nat × Nat)) (k v : Nat) : List (Nat × Nat) :=
  if m.any (fun p => p.1 == k) then
    m.map (fun p => if p.1 == k then (k, v) else p)
  else m ++ [(k, v)]

/-- Map read `m[k]` of the association-list model of `std::map` (a missing
key default-constructs to `0`, as `std::map::operator[]` does). -/
def getAssoc (m : List (Nat × Nat)) (k : Nat) : Nat :=
  match m.find? (fun p => p.1 == k) with
  | some p => p.2
  | none => 0

/-- Bit masks and human-readable causes tested by `CheckError` against a
"Hardware Error Status" value, in source order.  The literals `0x16` and
`0x32` are exactly the source's mask literals. -/
def hwErrorMasks : List (Nat × String) :=
  [(0x01, "input voltage error/ "),
   (0x04, "overheating/ "),
   (0x08, "motor encoder/ "),
   (0x16, "electrical shork/ "),
   (0x32, "Overload/ ")]

/-- The `error_string` that `CheckError` accumulates for a hardware-error
bitmask `v`: each of the five mask tests appends its cause text, in source
order. -/
def causeString (v : Nat) : String :=
  (if v &&& 0x01 != 0 then "input voltage error/ " else "") ++
  ((if v &&& 0x04 != 0 then "overheating/ " else "") ++
  ((if v &&& 0x08 != 0 then "motor encoder/ " else "") ++
  ((if v &&& 0x16 != 0 then "electrical shork/ " else "") ++
  (if v &&& 0x32 != 0 then "Overload/ " else ""))))

/-- The same cause accumulation as `causeString`, kept as a list of the
individual matching cause texts (used to state that the log holds every
matching cause, not just the first). -/
def causeParts (v : Nat) : List String :=
  (hwErrorMasks.filter (fun p => v &&& p.1 != 0)).map Prod.snd

/-- Whether a "Hardware Error Status" value has any bit that one of the
five mask tests of `CheckError` reacts to. -/
def relevantErrB (v : Nat) : Bool :=
  (v &&& 0x01 != 0) || (v &&& 0x04 != 0) || (v &&& 0x08 != 0) ||
  (v &&& 0x16 != 0) || (v &&& 0x32 != 0)

/-- Accumulator of `CheckError`'s hardware-bit loop: the local
`error_state`, the mutable fault state, and the warnings logged so far
(each `(ID, error_string)`). -/
structure CheckAcc where
  error_state : DxlError
  fault : FaultState
  logs : List (Nat × String)
deriving DecidableEq, Repr

/-- Body of `CheckError`'s inner loop for one interface slot `p` of
transmission `tr`: on the "Hardware Error Status" interface, store the
value into `dxl_hw_err_[id]`, build the cause string from the stored
value, and when it is nonempty log a warning, set `dxl_status_ = HW_ERROR`
and `error_state = DLX_HARDWARE_ERROR`. -/
def checkHwStep (tr : HandlerVarType Nat) (acc : CheckAcc) (p : String × Nat) : CheckAcc :=
  if p.1 = "Hardware Error Status" then
    let m2 := setAssoc acc.fault.dxl_hw_err tr.id p.2
    let s := causeString (getAssoc m2 tr.id)
    if s ≠ "" then
      { error_state := DxlError.dlxHardwareError,
        fault := { dxl_status := DxlStatus.hwError, dxl_hw_err := m2 },
        logs := acc.logs ++ [(tr.id, s)] }
    else
      { acc with fault := { acc.fault with dxl_hw_err := m2 } }
  else acc

/-- Body of `CheckError`'s outer loop for one transmission: scan its
interface names (paired with their value slots). -/
def checkTransmission (acc : CheckAcc) (tr : HandlerVarType Nat) : CheckAcc :=
  (tr.interface_name_vec.zip tr.value_ptr_vec).foldl (checkHwStep tr) acc

/-- Model of `DynamixelHardware::CheckError` (source lines 496-553).  A
non-`OK` transport result short-circuits: `dxl_status_ = COMM_ERROR`, the
hardware bits are not inspected, and the transport code is returned.
Otherwise every transmission's "Hardware Error Status" slot is classified.
Returns `(error_state, fault state, logged warnings)`.  The final loop of
the source that mirrors `error_state` into the `HW_IF_HARDWARE_STATE`
joint-state slots writes exactly the returned `error_state` and is not
re-modelled separately. -/
def CheckError (dxl_comm_err : DxlError) (trans : List (HandlerVarType Nat))
    (st : FaultState) : DxlError × FaultState × List (Nat × String) :=
  if dxl_comm_err ≠ DxlError.ok then
    (dxl_comm_err, { st with dxl_status := DxlStatus.commError }, [])
  else
    let acc := trans.foldl checkTransmission
      { error_state := DxlError.ok, fault := st, logs := [] }
    (acc.error_state, acc.fault, acc.logs)

/-- A transmission-state handler exposing exactly the "Hardware Error
Status" interface with value `p.2` for actuator ID `p.1` (the handler
shape `CheckError`'s hardware-bit loop inspects). -/
def mkHwTrans (p : Nat × Nat) : HandlerVarType Nat :=
  ⟨p.1, "dxl", ["Hardware Error Status"], [p.2]⟩

/-- Model of `DynamixelHardware::read` (source lines 433-469), restricted
to its status gate and error classification.  Arguments: the fault state,
the transport result that `dxl_comm_->ReadMultiDxlData()` would return
this tick, and the transmission-state handlers the classification reads.
Returns the tick's return code, the fault state afterwards, and whether
the bulk read (actuator I/O) was attempted at all.  On the accepted
paths the source then runs `CalcTransmissionToJoint`, sensor reads and
`ReadItemBuf`, modelled by their own functions below. -/
def DynamixelHardware.read (st : FaultState) (bulkResult : DxlError)
    (trans : List (HandlerVarType Nat)) : ReturnType × FaultState × Bool :=
  match st.dxl_status with
  | DxlStatus.rebooting => (ReturnType.error, st, false)
  | DxlStatus.dxlOk =>
    let r := CheckError bulkResult trans st
    if r.1 ≠ DxlError.ok then (ReturnType.error, r.2.1, true)
    else (ReturnType.ok, r.2.1, true)
  | DxlStatus.commError =>
    let r := CheckError bulkResult trans st
    if r.1 ≠ DxlError.ok then (ReturnType.error, r.2.1, true)
    else (ReturnType.ok, r.2.1, true)
  | DxlStatus.hwError =>
    let r := CheckError bulkResult trans st
    (ReturnType.ok, r.2.1, true)

/-- Replace the first value slot of a command handler's value vector
(the C++ `*value_ptr_vec.at(0) = v`). -/
def setHead : List Rat → Rat → List Rat
  | [], _ => []
  | _ :: t, v => v :: t

/-- One comparison-and-assignment of `SyncJointCommandWithStates`'s inner
loop: when the command's first interface name equals the state interface
name `p.1`, copy the state value `p.2` into the command's first slot. -/
def syncAssign (c : HandlerVarType Rat) (p : String × Rat) : HandlerVarType Rat :=
  if c.interface_name_vec.head? = some p.1 then
    { c with value_ptr_vec := setHead c.value_ptr_vec p.2 }
  else c

/-- Effect of one state handler `s` on one command handler `c` in
`SyncJointCommandWithStates`: when the names match, every state interface
slot is compared (in order) against the command's first interface name and
assigned on match. -/
def syncStep (c s : HandlerVarType Rat) : HandlerVarType Rat :=
  if s.name = c.name then
    (s.interface_name_vec.zip s.value_ptr_vec).foldl syncAssign c
  else c

/-- Model of `DynamixelHardware::SyncJointCommandWithStates` (source lines
867-886): outer loop over the joint-state handlers, inner loop over the
joint-command handlers, comparing and assigning only slot 0 of each
command. -/
def DynamixelHardware.SyncJointCommandWithStates
    (states cmds : List (HandlerVarType Rat)) : List (HandlerVarType Rat) :=
  states.foldl (fun cs s => cs.map (fun c => syncStep c s)) cmds

/-- Values of state handler `s` that `SyncJointCommandWithStates` would
assign into command handler `c`'s slot 0, in assignment order: when the
names match, the values of `s` whose interface name equals `c`'s first
interface name. -/
def matchesOf (c s : HandlerVarType Rat) : List Rat :=
  if s.name = c.name then
    ((s.interface_name_vec.zip s.value_ptr_vec).filter
      (fun p => decide (c.interface_name_vec.head? = some p.1))).map Prod.snd
  else []

/-- All values assigned into command handler `c`'s slot 0 over the whole
state-handler loop, in assignment order (the last one is what slot 0
finally holds). -/
def matchingStateValues (states : List (HandlerVarType Rat))
    (c : HandlerVarType Rat) : List Rat :=
  (states.map (matchesOf c)).flatten

/-- Calls issued to the actuator link by the torque coordinator
(`dxl_comm_->DynamixelEnable(dxl_id_)` / `DynamixelDisable(dxl_id_)`). -/
inductive LinkCall where
  | dynamixelEnable (ids : List Nat)
  | dynamixelDisable (ids : List Nat)
deriving DecidableEq, Repr

/-- Final loop of `ChangeDxlTorqueState` over the map returned by
`GetDxlTorqueState()`: the first entry reporting `false` concludes
`TORQUE_DISABLED`; if none does (in particular on the empty map) the
status becomes `TORQUE_ENABLED`. -/
def GetDxlTorqueStatusFromMap : List (Nat × Bool) → TorqueStatus
  | [] => TorqueStatus.torqueEnabled
  | p :: rest =>
    if p.2 = false then TorqueStatus.torqueDisabled
    else GetDxlTorqueStatusFromMap rest

/-- Model of `DynamixelHardware::ChangeDxlTorqueState` (source lines
888-908).  Arguments: the torque status, the actuator ID list `dxl_id_`,
the per-ID torque map that `GetDxlTorqueState()` returns, and the
joint-state/joint-command handlers read and written by the resync.
Returns the torque status afterwards, the actuator-link calls issued, and
the joint-command handlers afterwards. -/
def DynamixelHardware.ChangeDxlTorqueState (ts : TorqueStatus) (dxl_id : List Nat)
    (torque_map : List (Nat × Bool)) (states cmds : List (HandlerVarType Rat)) :
    TorqueStatus × List LinkCall × List (HandlerVarType Rat) :=
  let acted :=
    if ts = TorqueStatus.requestedToEnable then
      ([LinkCall.dynamixelEnable dxl_id],
       DynamixelHardware.SyncJointCommandWithStates states cmds)
    else if ts = TorqueStatus.requestedToDisable then
      ([LinkCall.dynamixelDisable dxl_id],
       DynamixelHardware.SyncJointCommandWithStates states cmds)
    else ([], cmds)
  (GetDxlTorqueStatusFromMap torque_map, acted.1, acted.2)

/-- Inner accumulation of `CalcTransmissionToJoint` / `CalcJointToTransmission`:
`value = 0; for j: value += row[j] * v[j]`. -/
def matVecRow (row v : List Rat) : Rat :=
  (row.zip v).foldl (fun acc p => acc + p.1 * p.2) 0

/-- Row-wise matrix-vector product, one output entry per matrix row. -/
def matVec (M : List (List Rat)) (v : List Rat) : List Rat :=
  M.map (fun row => matVecRow row v)

/-- Model of `DynamixelHardware::CalcTransmissionToJoint` (source lines
820-852): the same `transmission_to_joint_matrix_` is applied separately
to the position channel (transmission slot `PRESENT_POSITION_INDEX`), the
velocity channel and the effort channel, writing the corresponding
joint-state slots.  The three source channels are passed as the vectors of
transmission-state slot values. -/
def DynamixelHardware.CalcTransmissionToJoint (M : List (List Rat))
    (pos vel eff : List Rat) : List Rat × List Rat × List Rat :=
  (matVec M pos, matVec M vel, matVec M eff)

/-- Model of `DynamixelHardware::CalcJointToTransmission` (source lines
854-865): `joint_to_transmission_matrix_` applied to the joint-command
slot-0 values, writing transmission-command slot 0. -/
def DynamixelHardware.CalcJointToTransmission (Mjt : List (List Rat))
    (cmd : List Rat) : List Rat :=
  matVec Mjt cmd

/-- Slot-0 values of the joint-command handlers, the vector
`CalcJointToTransmission` reads (`hdl_joint_commands_.at(j).value_ptr_vec.at(0)`). -/
def jointCommandChannel0 (cmds : List (HandlerVarType Rat)) : List Rat :=
  cmds.map (fun c => c.value_ptr_vec.headD 0)

/-- Everything `DynamixelHardware::write` produces in one tick. -/
structure WriteResult where
  ret : ReturnType
  torque_status : TorqueStatus
  link_calls : List LinkCall
  hdl_joint_commands : List (HandlerVarType Rat)
  hdl_trans_commands : List Rat
  did_io : Bool
deriving DecidableEq, Repr

/-- Model of `DynamixelHardware::write` (source lines 471-494).  When
`dxl_status_` is `DXL_OK` or `HW_ERROR` the tick drains the write item
buffer, runs `ChangeDxlTorqueState`, maps joint commands to transmission
commands and bulk-writes, returning `OK`; otherwise (`REBOOTING` and
`COMM_ERROR`, as the source's own comment says) it returns `ERROR` and
performs no actuator I/O.  `old_trans_commands` holds the
transmission-command slots as they were before the tick (unchanged on the
refused path). -/
def DynamixelHardware.write (status : DxlStatus) (ts : TorqueStatus)
    (dxl_id : List Nat) (torque_map : List (Nat × Bool))
    (states cmds : List (HandlerVarType Rat)) (Mjt : List (List Rat))
    (old_trans_commands : List Rat) : WriteResult :=
  if status = DxlStatus.dxlOk ∨ status = DxlStatus.hwError then
    let t := DynamixelHardware.ChangeDxlTorqueState ts dxl_id torque_map states cmds
    { ret := ReturnType.ok,
      torque_status := t.1,
      link_calls := t.2.1,
      hdl_joint_commands := t.2.2,
      hdl_trans_commands :=
        DynamixelHardware.CalcJointToTransmission Mjt (jointCommandChannel0 t.2.2),
      did_io := true }
  else
    { ret := ReturnType.error,
      torque_status := ts,
      link_calls := [],
      hdl_joint_commands := cmds,
      hdl_trans_commands := old_trans_commands,
      did_io := false }

/-- Model of `DynamixelHardware::start` (source lines 380-421) restricted
to its effect on the fault state: it classifies a fresh bulk read through
`CheckError`; a non-`OK` classification returns failure early, otherwise
the joint sync and torque enable run and it returns success.  Note that
`start` never assigns `dxl_status_` itself: only `CheckError` inside it
can move the status. -/
def DynamixelHardware.start (readResult : DxlError)
    (trans : List (HandlerVarType Nat)) (st : FaultState) : FaultState × Bool :=
  let r := CheckError readResult trans st
  if r.1 ≠ DxlError.ok then (r.2.1, false) else (r.2.1, true)

/-- Reboot loop of `DynamixelHardware::CommReset` (source lines 566-593).
The bounded 3-second wall-clock window is modelled by the finite list
`attempts`, one entry per loop iteration, `true` when that iteration's
per-ID reboots and the three re-registration steps all succeed.  A
successful iteration runs `start()` and then assigns
`dxl_status_ = DXL_OK`, returning `true`.  An exhausted window runs
`start()` and returns `false` WITHOUT assigning `dxl_status_` (the
source's failure path has no such assignment).  The read outcome of the
final `start()` is the pair `(finalRead, finalTrans)`. -/
def DynamixelHardware.CommResetLoop (attempts : List Bool) (finalRead : DxlError)
    (finalTrans : List (HandlerVarType Nat)) (st : FaultState) : Bool × FaultState :=
  match attempts with
  | [] => (false, (DynamixelHardware.start finalRead finalTrans st).1)
  | a :: rest =>
    if a then
      (true, { (DynamixelHardware.start finalRead finalTrans st).1 with
                 dxl_status := DxlStatus.dxlOk })
    else DynamixelHardware.CommResetLoop rest finalRead finalTrans st

/-- Model of `DynamixelHardware::CommReset` (source lines 555-598): set
`dxl_status_ = REBOOTING`, stop (torque off), reset the link's read/write
registration, then run the bounded reboot loop. -/
def DynamixelHardware.CommReset (attempts : List Bool) (finalRead : DxlError)
    (finalTrans : List (HandlerVarType Nat)) (st : FaultState) : Bool × FaultState :=
  DynamixelHardware.CommResetLoop attempts finalRead finalTrans
    { st with dxl_status := DxlStatus.rebooting }

/-- Model of the request-classification phase of
`DynamixelHardware::set_dxl_torque_srv_callback` (source lines 969-989):
an enable request while already `TORQUE_ENABLED` (or a disable request
while already `TORQUE_DISABLED`) answers success immediately and leaves
the status untouched; otherwise the status becomes the corresponding
`REQUESTED_*` value and the callback proceeds to its bounded polling wait
(the wait itself, pure timing, is outside the model).  Returns the torque
status afterwards and `some (success, message)` when the callback answered
immediately. -/
def DynamixelHardware.set_dxl_torque_srv_callback (request_data : Bool)
    (ts : TorqueStatus) : TorqueStatus × Option (Bool × String) :=
  if request_data then
    if ts = TorqueStatus.torqueEnabled then (ts, some (true, "Already enabled."))
    else (TorqueStatus.requestedToEnable, none)
  else
    if ts = TorqueStatus.torqueDisabled then (ts, some (true, "Already disabled."))
    else (TorqueStatus.requestedToDisable, none)

/-- Conclusion loop of `ChangeDxlTorqueState`: the resulting torque status
is `TORQUE_ENABLED` exactly when every map entry reports enabled, and
`TORQUE_DISABLED` exactly when some entry reports disabled. -/
theorem getDxlTorqueStatusFromMap_spec (l : List (Nat × Bool)) :
    (GetDxlTorqueStatusFromMap l = TorqueStatus.torqueEnabled ↔ ∀ p ∈ l, p.2 = true) ∧
    (GetDxlTorqueStatusFromMap l = TorqueStatus.torqueDisabled ↔ ∃ p ∈ l, p.2 = false) := by
  induction l with
  | nil => simp [GetDxlTorqueStatusFromMap]
  | cons p rest ih =>
    by_cases h : p.2 = false
    · simp [GetDxlTorqueStatusFromMap, h]
    · have hp : p.2 = true := by simpa using h
      simp [GetDxlTorqueStatusFromMap, hp, ih]

/-- Conclusion loop of `ChangeDxlTorqueState` always lands in one of the
two settled statuses. -/
theorem getDxlTorqueStatusFromMap_resolved (l : List (Nat × Bool)) :
    GetDxlTorqueStatusFromMap l = TorqueStatus.torqueEnabled ∨
    GetDxlTorqueStatusFromMap l = TorqueStatus.torqueDisabled := by
  induction l with
  | nil => exact Or.inl rfl
  | cons p rest ih =>
    by_cases h : p.2 = false
    · simp [GetDxlTorqueStatusFromMap, h]
    · simpa [GetDxlTorqueStatusFromMap, h] using ih

/-- Claim C1: if the `CommReset` reboot loop exhausts its bounded window
(every attempt fails), it reports failure — but when the final `start()`
classification is clean, `dxl_status_` is left at `REBOOTING`, so every
subsequent `read` tick is refused with no actuator I/O and every `write`
tick is refused as well: the system stays wedged, contradicting the
claim's "leaves Rebooting" part. -/
theorem C1_comm_reset_timeout_wedges_rebooting :
    DynamixelHardware.CommReset [false, false, false] DxlError.ok []
        ⟨DxlStatus.dxlOk, []⟩ = (false, ⟨DxlStatus.rebooting, []⟩) ∧
    DynamixelHardware.read ⟨DxlStatus.rebooting, []⟩ DxlError.ok [] =
      (ReturnType.error, ⟨DxlStatus.rebooting, []⟩, false) ∧
    (DynamixelHardware.write DxlStatus.rebooting TorqueStatus.torqueEnabled []
        [] [] [] [] []).ret = ReturnType.error :=
  ⟨rfl, rfl, rfl⟩

/-- Claim C2, counterexample: a `write` tick in status `COMM_ERROR` is
refused (`ERROR`, no actuator I/O), while the claim states that only
`Rebooting` refuses the write step. -/
theorem C2_write_refused_in_comm_error :
    (DynamixelHardware.write DxlStatus.commError TorqueStatus.torqueEnabled []
        [] [] [] [] []).ret = ReturnType.error ∧
    (DynamixelHardware.write DxlStatus.commError TorqueStatus.torqueEnabled []
        [] [] [] [] []).did_io = false :=
  ⟨rfl, rfl⟩

/-- Claim C2, amended: the write step performs its actuator I/O (item
buffer, torque application, joint-to-transmission mapping, bulk write) and
reports success exactly when the status is `DXL_OK` or `HW_ERROR`; it is
refused — reports `ERROR`, performs no actuator I/O and changes nothing —
exactly when the status is `REBOOTING` or `COMM_ERROR`. -/
theorem C2_write_gating_amended (status : DxlStatus) (ts : TorqueStatus)
    (dxl_id : List Nat) (torque_map : List (Nat × Bool))
    (states cmds : List (HandlerVarType Rat)) (Mjt : List (List Rat))
    (old_trans : List Rat) :
    ((DynamixelHardware.write status ts dxl_id torque_map states cmds Mjt
        old_trans).ret = ReturnType.ok ∧
     (DynamixelHardware.write status ts dxl_id torque_map states cmds Mjt
        old_trans).did_io = true ↔
      status = DxlStatus.dxlOk ∨ status = DxlStatus.hwError) ∧
    ((DynamixelHardware.write status ts dxl_id torque_map states cmds Mjt
        old_trans).ret = ReturnType.error ∧
     (DynamixelHardware.write status ts dxl_id torque_map states cmds Mjt
        old_trans).did_io = false ∧
     (DynamixelHardware.write status ts dxl_id torque_map states cmds Mjt
        old_trans).link_calls = [] ∧
     (DynamixelHardware.write status ts dxl_id torque_map states cmds Mjt
        old_trans).torque_status = ts ∧
     (DynamixelHardware.write status ts dxl_id torque_map states cmds Mjt
        old_trans).hdl_joint_commands = cmds ∧
     (DynamixelHardware.write status ts dxl_id torque_map states cmds Mjt
        old_trans).hdl_trans_commands = old_trans ↔
      status = DxlStatus.rebooting ∨ status = DxlStatus.commError) := by
  cases status <;> simp [DynamixelHardware.write]

/-- Claim C5: the torque status concluded by `ChangeDxlTorqueState` is
`TORQUE_ENABLED` iff every ID in the queried map reports enabled, and
`TORQUE_DISABLED` iff some single ID reports disabled. -/
theorem C5_torque_status_all_enabled_iff (ts : TorqueStatus) (dxl_id : List Nat)
    (torque_map : List (Nat × Bool)) (states cmds : List (HandlerVarType Rat)) :
    ((DynamixelHardware.ChangeDxlTorqueState ts dxl_id torque_map states cmds).1 =
        TorqueStatus.torqueEnabled ↔ ∀ p ∈ torque_map, p.2 = true) ∧
    ((DynamixelHardware.ChangeDxlTorqueState ts dxl_id torque_map states cmds).1 =
        TorqueStatus.torqueDisabled ↔ ∃ p ∈ torque_map, p.2 = false) := by
  simpa [DynamixelHardware.ChangeDxlTorqueState] using
    getDxlTorqueStatusFromMap_spec torque_map

/-- Claim C6: a `SetTorque` enable request while already `TORQUE_ENABLED`
(and a disable request while already `TORQUE_DISABLED`) answers success
immediately with the corresponding message and leaves the torque status
unchanged; since the status stays settled, the next write tick's
`ChangeDxlTorqueState` issues no actuator-link enable/disable call. -/
theorem C6_set_torque_noop_idempotent :
    DynamixelHardware.set_dxl_torque_srv_callback true TorqueStatus.torqueEnabled =
      (TorqueStatus.torqueEnabled, some (true, "Already enabled.")) ∧
    DynamixelHardware.set_dxl_torque_srv_callback false TorqueStatus.torqueDisabled =
      (TorqueStatus.torqueDisabled, some (true, "Already disabled.")) ∧
    (∀ (dxl_id : List Nat) (torque_map : List (Nat × Bool))
        (states cmds : List (HandlerVarType Rat)),
      (DynamixelHardware.ChangeDxlTorqueState TorqueStatus.torqueEnabled dxl_id
          torque_map states cmds).2.1 = [] ∧
      (DynamixelHardware.ChangeDxlTorqueState TorqueStatus.torqueDisabled dxl_id
          torque_map states cmds).2.1 = []) :=
  ⟨rfl, rfl, fun _ _ _ _ => ⟨rfl, rfl⟩⟩

/-- Claim C7: the read step attempts the bulk read exactly when the
status is not `REBOOTING` (so `DXL_OK`, `COMM_ERROR` and `HW_ERROR` all
keep retrying), and the combination "returns `ERROR`, attempts no
actuator I/O, changes nothing" happens exactly in status `REBOOTING`. -/
theorem C7_read_gating (st : FaultState) (bulkResult : DxlError)
    (trans : List (HandlerVarType Nat)) :
    ((DynamixelHardware.read st bulkResult trans).2.2 = true ↔
      st.dxl_status ≠ DxlStatus.rebooting) ∧
    ((DynamixelHardware.read st bulkResult trans).1 = ReturnType.error ∧
     (DynamixelHardware.read st bulkResult trans).2.2 = false ∧
     (DynamixelHardware.read st bulkResult trans).2.1 = st ↔
      st.dxl_status = DxlStatus.rebooting) := by
  obtain ⟨s, m⟩ := st
  cases s <;> simp only [DynamixelHardware.read] <;> (try split) <;> simp_all

/-- Claim C9: in status `HW_ERROR` a transport-level bulk-read failure
still lets the read tick return `OK` (the failure is reflected only in
the communication status, which `CheckError` moves to `COMM_ERROR`),
whereas the identical transport failure in status `DXL_OK` or
`COMM_ERROR` makes the read tick return `ERROR`. -/
theorem C9_read_hw_error_masks_transport_failure (m : List (Nat × Nat))
    (trans : List (HandlerVarType Nat)) (f : DxlError) (hf : f ≠ DxlError.ok) :
    (DynamixelHardware.read ⟨DxlStatus.hwError, m⟩ f trans).1 = ReturnType.ok ∧
    (DynamixelHardware.read ⟨DxlStatus.hwError, m⟩ f trans).2.1.dxl_status =
      DxlStatus.commError ∧
    (DynamixelHardware.read ⟨DxlStatus.dxlOk, m⟩ f trans).1 = ReturnType.error ∧
    (DynamixelHardware.read ⟨DxlStatus.commError, m⟩ f trans).1 = ReturnType.error := by
  simp [DynamixelHardware.read, CheckError, hf]

/-- Claim C9, witness: the theorem instantiated at a concrete transport
failure (`commRxFail`) with an empty error map and no transmissions. -/
theorem C9_read_hw_error_masks_transport_failure_witness :
    DxlError.commRxFail ≠ DxlError.ok ∧
    ((DynamixelHardware.read ⟨DxlStatus.hwError, []⟩ DxlError.commRxFail []).1 =
        ReturnType.ok ∧
     (DynamixelHardware.read ⟨DxlStatus.hwError, []⟩
        DxlError.commRxFail []).2.1.dxl_status = DxlStatus.commError ∧
     (DynamixelHardware.read ⟨DxlStatus.dxlOk, []⟩ DxlError.commRxFail []).1 =
        ReturnType.error ∧
     (DynamixelHardware.read ⟨DxlStatus.commError, []⟩ DxlError.commRxFail []).1 =
        ReturnType.error) :=
  ⟨by decide,
   C9_read_hw_error_masks_transport_failure [] [] DxlError.commRxFail (by decide)⟩

/-- Claim C10: every call to `ChangeDxlTorqueState` leaves the torque
status settled (`TORQUE_ENABLED` or `TORQUE_DISABLED`); in particular an
empty per-ID torque map concludes `TORQUE_ENABLED`. -/
theorem C10_torque_status_resolved (ts : TorqueStatus) (dxl_id : List Nat)
    (torque_map : List (Nat × Bool)) (states cmds : List (HandlerVarType Rat)) :
    ((DynamixelHardware.ChangeDxlTorqueState ts dxl_id torque_map states cmds).1 =
        TorqueStatus.torqueEnabled ∨
     (DynamixelHardware.ChangeDxlTorqueState ts dxl_id torque_map states cmds).1 =
        TorqueStatus.torqueDisabled) ∧
    (torque_map = [] →
     (DynamixelHardware.ChangeDxlTorqueState ts dxl_id torque_map states cmds).1 =
        TorqueStatus.torqueEnabled) := by
  constructor
  · simpa [DynamixelHardware.ChangeDxlTorqueState] using
      getDxlTorqueStatusFromMap_resolved torque_map
  · rintro rfl
    rfl

/-- Claim C3, counterexample: a joint whose command handler exposes the
two interfaces position and velocity.  With state values position = 1,
velocity = 2 and stale command values 10 and 20, a `REQUESTED_TO_ENABLE`
transition resynchronizes only the first command slot: the resulting
command handler holds `[1, 20]`, and its velocity slot 20 differs from
the state's velocity 2 — not every exposed command interface was
resynchronized. -/
theorem C3_sync_only_first_interface_counterexample :
    (DynamixelHardware.ChangeDxlTorqueState TorqueStatus.requestedToEnable [1] []
        [⟨0, "j", ["position", "velocity"], [(1 : Rat), 2]⟩]
        [⟨0, "j", ["position", "velocity"], [(10 : Rat), 20]⟩]).2.2 =
      [⟨0, "j", ["position", "velocity"], [(1 : Rat), 20]⟩] ∧
    ((20 : Rat) ≠ 2) :=
  ⟨rfl, by norm_num⟩

/-- Claim C4, counterexample: the value `0x40` has none of the five
relevant error bits of `CheckError`, yet the classification still records
it into `HardwareErrorBits` (the map moves from `5 ↦ 0` to `5 ↦ 0x40`) —
so a value with no relevant bit set does not trigger "none of this";
only the status change and the cause log are suppressed. -/
theorem C4_irrelevant_bits_still_recorded :
    ((0x40 : Nat) &&& 0x01 = 0 ∧ (0x40 : Nat) &&& 0x04 = 0 ∧
     (0x40 : Nat) &&& 0x08 = 0 ∧ (0x40 : Nat) &&& 0x16 = 0 ∧
     (0x40 : Nat) &&& 0x32 = 0) ∧
    (CheckError DxlError.ok [⟨5, "dxl", ["Hardware Error Status"], [0x40]⟩]
        ⟨DxlStatus.dxlOk, [(5, 0)]⟩).2.1.dxl_hw_err = [(5, 0x40)] ∧
    ([(5, 0x40)] ≠ [(5, (0 : Nat))]) ∧
    (CheckError DxlError.ok [⟨5, "dxl", ["Hardware Error Status"], [0x40]⟩]
        ⟨DxlStatus.dxlOk, [(5, 0)]⟩).2.1.dxl_status = DxlStatus.dxlOk ∧
    (CheckError DxlError.ok [⟨5, "dxl", ["Hardware Error Status"], [0x40]⟩]
        ⟨DxlStatus.dxlOk, [(5, 0)]⟩).2.2 = [] :=
  ⟨by decide, rfl, by decide, rfl, rfl⟩

/-- Cause string emptiness: `CheckError`'s accumulated `error_string` for a
bitmask `v` is empty exactly when none of the five mask tests reacts. -/
theorem causeString_eq_empty_iff (v : Nat) :
    (causeString v = "") ↔ relevantErrB v = false := by
  simp only [causeString, relevantErrB]
  cases hb1 : v &&& 0x01 != 0 <;> cases hb2 : v &&& 0x04 != 0 <;>
    cases hb3 : v &&& 0x08 != 0 <;> cases hb4 : v &&& 0x16 != 0 <;>
    cases hb5 : v &&& 0x32 != 0 <;>
    simp only [if_true, if_false, Bool.false_or, Bool.true_or, Bool.or_false,
      Bool.or_true] <;> decide

/-- The cause string is the concatenation of exactly the matching cause
texts, in source order. -/
theorem causeString_eq_join (v : Nat) :
    causeString v = String.join (causeParts v) := by
  simp only [causeString, causeParts, hwErrorMasks]
  cases hb1 : v &&& 0x01 != 0 <;> cases hb2 : v &&& 0x04 != 0 <;>
    cases hb3 : v &&& 0x08 != 0 <;> cases hb4 : v &&& 0x16 != 0 <;>
    cases hb5 : v &&& 0x32 != 0 <;>
    simp only [hb1, hb2, hb3, hb4, hb5, List.filter, List.map, if_true, if_false] <;>
    decide

/-- Every mask whose bit test matches contributes its cause text to the
cause list. -/
theorem mem_causeParts_of_match (v : Nat) (q : Nat × String) (hq : q ∈ hwErrorMasks)
    (h : (v &&& q.1 != 0) = true) : q.2 ∈ causeParts v :=
  List.mem_map_of_mem Prod.snd (List.mem_filter.mpr ⟨hq, h⟩)

/-- After replacing key `k` in the association-list map, reading `k` gives
the written value (the `dxl_hw_err_[id] = v; ... dxl_hw_err_[id] & mask`
round trip of `CheckError`). -/
theorem find?_map_replace (k v : Nat) : ∀ (m : List (Nat × Nat)),
    m.any (fun p => p.1 == k) = true →
    (m.map (fun p => if p.1 == k then (k, v) else p)).find? (fun p => p.1 == k) =
      some (k, v) := by
  intro m
  induction m with
  | nil => simp
  | cons a t ih =>
    intro h
    by_cases ha : (a.1 == k) = true
    · rw [List.map_cons, if_pos ha, List.find?_cons_of_pos _ (by simp)]
    · have ha2 : (a.1 == k) = false := by simpa using ha
      have ht : t.any (fun p => p.1 == k) = true := by
        rcases List.any_eq_true.mp h with ⟨x, hx, hpx⟩
        rcases List.mem_cons.mp hx with rfl | hxt
        · exact absurd hpx (by simpa using ha)
        · exact List.any_eq_true.mpr ⟨x, hxt, hpx⟩
      rw [List.map_cons, if_neg (by simp [ha2])]
      rw [List.find?_cons_of_neg _ (by simp [ha2])]
      exact ih ht

/-- Writing key `k` and reading it back yields the written value. -/
theorem getAssoc_setAssoc (m : List (Nat × Nat)) (k v : Nat) :
    getAssoc (setAssoc m k v) k = v := by
  unfold getAssoc setAssoc
  by_cases h : m.any (fun p => p.1 == k) = true
  · rw [if_pos h, find?_map_replace k v m h]
  · rw [if_neg h]
    have hnone : m.find? (fun p => p.1 == k) = none := by
      rw [List.find?_eq_none]
      intro x hx hpx
      exact h (List.any_eq_true.mpr ⟨x, hx, hpx⟩)
    rw [List.find?_append, hnone]
    simp

/-- One hardware-error transmission through `checkTransmission`: a value
with a matching bit flags `HW_ERROR`, records the bitmask and logs the
cause string; a value without one records the bitmask only. -/
theorem checkTransmission_mkHwTrans (acc : CheckAcc) (p : Nat × Nat) :
    checkTransmission acc (mkHwTrans p) =
      if relevantErrB p.2 then
        ⟨DxlError.dlxHardwareError,
         ⟨DxlStatus.hwError, setAssoc acc.fault.dxl_hw_err p.1 p.2⟩,
         acc.logs ++ [(p.1, causeString p.2)]⟩
      else
        ⟨acc.error_state,
         ⟨acc.fault.dxl_status, setAssoc acc.fault.dxl_hw_err p.1 p.2⟩,
         acc.logs⟩ := by
  by_cases h : relevantErrB p.2 = true
  · have hs : causeString p.2 ≠ "" := by
      rw [Ne, causeString_eq_empty_iff]
      simp [h]
    simp [checkTransmission, mkHwTrans, checkHwStep, getAssoc_setAssoc, hs, h]
  · have h2 : relevantErrB p.2 = false := by simpa using h
    have hs : causeString p.2 = "" := (causeString_eq_empty_iff p.2).mpr h2
    simp [checkTransmission, mkHwTrans, checkHwStep, getAssoc_setAssoc, hs, h2]

/-- The hardware-bit loop of `CheckError` over a list of hardware-error
transmissions: the map accumulates every value, the log collects exactly
the flagged IDs with their cause strings, and the status/error-state flip
to `HW_ERROR`/`DLX_HARDWARE_ERROR` exactly when some value matched. -/
theorem checkError_fold (items : List (Nat × Nat)) : ∀ acc : CheckAcc,
    (items.map mkHwTrans).foldl checkTransmission acc =
      ⟨(if items.any (fun p => relevantErrB p.2) then DxlError.dlxHardwareError
        else acc.error_state),
       ⟨(if items.any (fun p => relevantErrB p.2) then DxlStatus.hwError
         else acc.fault.dxl_status),
        items.foldl (fun m p => setAssoc m p.1 p.2) acc.fault.dxl_hw_err⟩,
       acc.logs ++ (items.filter (fun p => relevantErrB p.2)).map
         (fun p => (p.1, causeString p.2))⟩ := by
  induction items with
  | nil => intro acc; simp
  | cons p rest ih =>
    intro acc
    simp only [List.map_cons, List.foldl_cons, checkTransmission_mkHwTrans]
    by_cases h : relevantErrB p.2 = true
    · rw [if_pos h, ih]
      simp [h, List.filter_cons]
    · have h2 : relevantErrB p.2 = false := by simpa using h
      rw [if_neg (by simp [h2]), ih]
      simp only [List.any_cons, List.filter_cons, h2, Bool.false_or, if_false]
      simp

/-- Claim C4, amended: on a successful transport read, `CheckError`
refreshes `HardwareErrorBits` with every transmission's "Hardware Error
Status" value unconditionally; for every transmission whose value matches
one of the five mask tests it sets the status to `HW_ERROR`, returns
`DLX_HARDWARE_ERROR`, and logs that ID with a cause string that is the
concatenation of ALL matching causes (bits may combine), not just the
first; a value matching no mask changes neither status nor log (but its
bitmask is still recorded). -/
theorem C4_hardware_error_classification_amended (items : List (Nat × Nat))
    (st : FaultState) :
    ((CheckError DxlError.ok (items.map mkHwTrans) st).2.1.dxl_hw_err =
       items.foldl (fun m p => setAssoc m p.1 p.2) st.dxl_hw_err) ∧
    ((CheckError DxlError.ok (items.map mkHwTrans) st).2.2 =
       (items.filter (fun p => relevantErrB p.2)).map
         (fun p => (p.1, causeString p.2))) ∧
    ((CheckError DxlError.ok (items.map mkHwTrans) st).2.1.dxl_status =
       if items.any (fun p => relevantErrB p.2) then DxlStatus.hwError
       else st.dxl_status) ∧
    ((CheckError DxlError.ok (items.map mkHwTrans) st).1 =
       if items.any (fun p => relevantErrB p.2) then DxlError.dlxHardwareError
       else DxlError.ok) ∧
    (∀ v : Nat, causeString v = String.join (causeParts v)) ∧
    (∀ (v : Nat) (q : Nat × String), q ∈ hwErrorMasks → (v &&& q.1 != 0) = true →
       q.2 ∈ causeParts v) ∧
    (∀ v : Nat, (causeString v = "") ↔ relevantErrB v = false) := by
  have hbase := checkError_fold items ⟨DxlError.ok, st, []⟩
  refine ⟨?_, ?_, ?_, ?_, causeString_eq_join, mem_causeParts_of_match,
    causeString_eq_empty_iff⟩ <;>
    simp [CheckError, hbase]

/-- Fold of `getLastD` over an append: the last element of the
concatenation defaults through the left part. -/
theorem getLastD_append_eq {α : Type} (l1 l2 : List α) (d : α) :
    (l1 ++ l2).getLastD d = l2.getLastD (l1.getLastD d) := by
  induction l1 generalizing d with
  | nil => simp
  | cons a t ih => simp only [List.cons_append, List.getLastD_cons]; exact ih a

/-- Writing slot 0 of a nonempty value vector. -/
theorem setHead_of_ne_nil (l : List Rat) (v : Rat) (h : l ≠ []) :
    setHead l v = v :: l.tail := by
  cases l with
  | nil => exact absurd rfl h
  | cons a t => rfl

/-- A handler with a nonempty value vector is its own head-tail repack. -/
theorem hvt_eta (c : HandlerVarType Rat) (h : c.value_ptr_vec ≠ []) :
    c = { c with value_ptr_vec :=
            c.value_ptr_vec.headD 0 :: c.value_ptr_vec.tail } := by
  obtain ⟨i, n, iv, vv⟩ := c
  cases vv with
  | nil => exact absurd rfl h
  | cons a t => rfl

/-- Inner loop of `SyncJointCommandWithStates` over one state handler's
interface/value pairs: only slot 0 of the command is written, and it ends
holding the last pair whose interface name equals the command's first
interface name (or its old value if none matches). -/
theorem syncAssign_foldl (l : List (String × Rat)) : ∀ (c : HandlerVarType Rat),
    c.value_ptr_vec ≠ [] →
    l.foldl syncAssign c =
      { c with value_ptr_vec :=
          ((l.filter (fun p => decide (c.interface_name_vec.head? = some p.1))).map
            Prod.snd).getLastD (c.value_ptr_vec.headD 0) :: c.value_ptr_vec.tail } := by
  induction l with
  | nil =>
    intro c hc
    simpa using (hvt_eta c hc)
  | cons p rest ih =>
    intro c hc
    by_cases hm : c.interface_name_vec.head? = some p.1
    · have hstep : syncAssign c p =
          { c with value_ptr_vec := p.2 :: c.value_ptr_vec.tail } := by
        simp [syncAssign, hm, setHead_of_ne_nil _ _ hc]
      rw [List.foldl_cons, hstep,
        ih { c with value_ptr_vec := p.2 :: c.value_ptr_vec.tail } (by simp)]
      have hd : (decide (c.interface_name_vec.head? = some p.1)) = true :=
        decide_eq_true hm
      simp only [List.filter_cons, hd, if_true, List.map_cons, List.getLastD_cons,
        List.headD_cons, List.tail_cons]
    · have hstep : syncAssign c p = c := by
        simp [syncAssign, hm]
      rw [List.foldl_cons, hstep, ih c hc]
      have hd : (decide (c.interface_name_vec.head? = some p.1)) = false :=
        decide_eq_false hm
      simp only [List.filter_cons, hd, if_false, Bool.false_eq_true]

/-- One state handler's effect on one command handler: slot 0 takes the
last matching state value, everything else is unchanged. -/
theorem syncStep_spec (c s : HandlerVarType Rat) (hc : c.value_ptr_vec ≠ []) :
    syncStep c s =
      { c with value_ptr_vec :=
          (matchesOf c s).getLastD (c.value_ptr_vec.headD 0) ::
            c.value_ptr_vec.tail } := by
  by_cases hn : s.name = c.name
  · simp only [syncStep, matchesOf, if_pos hn]
    exact syncAssign_foldl _ c hc
  · simp only [syncStep, matchesOf, if_neg hn]
    simpa using (hvt_eta c hc)

/-- Accumulated effect of the whole state-handler loop on one command
handler. -/
theorem syncFold_spec (states : List (HandlerVarType Rat)) :
    ∀ (c : HandlerVarType Rat), c.value_ptr_vec ≠ [] →
    states.foldl (fun c2 s => syncStep c2 s) c =
      { c with value_ptr_vec :=
          (matchingStateValues states c).getLastD (c.value_ptr_vec.headD 0) ::
            c.value_ptr_vec.tail } := by
  induction states with
  | nil =>
    intro c hc
    simpa [matchingStateValues] using (hvt_eta c hc)
  | cons s rest ih =>
    intro c hc
    rw [List.foldl_cons, syncStep_spec c s hc,
      ih { c with value_ptr_vec :=
            (matchesOf c s).getLastD (c.value_ptr_vec.headD 0) ::
              c.value_ptr_vec.tail } (by simp)]
    have hmv : matchingStateValues rest
        { c with value_ptr_vec :=
            (matchesOf c s).getLastD (c.value_ptr_vec.headD 0) ::
              c.value_ptr_vec.tail } = matchingStateValues rest c := rfl
    rw [hmv]
    have hcons : matchingStateValues (s :: rest) c =
        matchesOf c s ++ matchingStateValues rest c := by
      simp [matchingStateValues]
    simp only [hcons, getLastD_append_eq]
    try simp
    try rfl

/-- The outer state loop with its inner command map commutes to a single
map of per-command folds. -/
theorem foldl_map_comm (states : List (HandlerVarType Rat)) :
    ∀ (cmds : List (HandlerVarType Rat)),
    states.foldl (fun cs s => cs.map (fun c => syncStep c s)) cmds =
      cmds.map (fun c => states.foldl (fun c2 s => syncStep c2 s) c) := by
  induction states with
  | nil => intro cmds; simp
  | cons s rest ih =>
    intro cmds
    rw [List.foldl_cons, ih, List.map_map]
    rfl

/-- `SyncJointCommandWithStates` rewrites each command handler's slot 0 to
the last matching state value and touches nothing else. -/
theorem syncJointCommandWithStates_spec (states cmds : List (HandlerVarType Rat))
    (h : ∀ c ∈ cmds, c.value_ptr_vec ≠ []) :
    DynamixelHardware.SyncJointCommandWithStates states cmds =
      cmds.map (fun c =>
        { c with value_ptr_vec :=
            (matchingStateValues states c).getLastD (c.value_ptr_vec.headD 0) ::
              c.value_ptr_vec.tail }) := by
  rw [DynamixelHardware.SyncJointCommandWithStates, foldl_map_comm]
  exact List.map_congr_left (fun c hc => syncFold_spec states c (h c hc))

/-- Claim C3, amended: on observing `REQUESTED_TO_ENABLE` or
`REQUESTED_TO_DISABLE`, `ChangeDxlTorqueState` issues the corresponding
actuator-link call across all actuator IDs and resynchronizes, for each
joint command handler, ONLY its first command slot — slot 0 takes the
state value of the interface named first in the command handler (the last
matching assignment), and all remaining command slots, the interface
names, the name and the ID are left unchanged. -/
theorem C3_torque_transition_sync_amended (req : TorqueStatus) (dxl_id : List Nat)
    (torque_map : List (Nat × Bool)) (states cmds : List (HandlerVarType Rat))
    (hreq : req = TorqueStatus.requestedToEnable ∨
      req = TorqueStatus.requestedToDisable)
    (hcm : ∀ c ∈ cmds, c.value_ptr_vec ≠ []) :
    (DynamixelHardware.ChangeDxlTorqueState req dxl_id torque_map states cmds).2.1 =
      (if req = TorqueStatus.requestedToEnable then [LinkCall.dynamixelEnable dxl_id]
       else [LinkCall.dynamixelDisable dxl_id]) ∧
    (DynamixelHardware.ChangeDxlTorqueState req dxl_id torque_map states cmds).2.2 =
      cmds.map (fun c =>
        { c with value_ptr_vec :=
            (matchingStateValues states c).getLastD (c.value_ptr_vec.headD 0) ::
              c.value_ptr_vec.tail }) := by
  rcases hreq with rfl | rfl
  · exact ⟨rfl, syncJointCommandWithStates_spec states cmds hcm⟩
  · exact ⟨rfl, syncJointCommandWithStates_spec states cmds hcm⟩

/-- Claim C3, witness: the amended theorem at a concrete enable
transition: one joint whose state exposes position and velocity and whose
command exposes position only. -/
theorem C3_torque_transition_sync_amended_witness :
    ((TorqueStatus.requestedToEnable = TorqueStatus.requestedToEnable ∨
      TorqueStatus.requestedToEnable = TorqueStatus.requestedToDisable) ∧
     (∀ c ∈ [(⟨0, "j", ["position"], [(10 : Rat)]⟩ : HandlerVarType Rat)],
        c.value_ptr_vec ≠ [])) ∧
    ((DynamixelHardware.ChangeDxlTorqueState TorqueStatus.requestedToEnable [7] []
        [⟨0, "j", ["position", "velocity"], [(1 : Rat), 2]⟩]
        [⟨0, "j", ["position"], [(10 : Rat)]⟩]).2.1 =
      (if TorqueStatus.requestedToEnable = TorqueStatus.requestedToEnable
       then [LinkCall.dynamixelEnable [7]] else [LinkCall.dynamixelDisable [7]]) ∧
     (DynamixelHardware.ChangeDxlTorqueState TorqueStatus.requestedToEnable [7] []
        [⟨0, "j", ["position", "velocity"], [(1 : Rat), 2]⟩]
        [⟨0, "j", ["position"], [(10 : Rat)]⟩]).2.2 =
      [(⟨0, "j", ["position"], [(10 : Rat)]⟩ : HandlerVarType Rat)].map (fun c =>
        { c with value_ptr_vec :=
            ((matchingStateValues [⟨0, "j", ["position", "velocity"], [(1 : Rat), 2]⟩] c).getLastD (c.value_ptr_vec.headD 0)) :: c.value_ptr_vec.tail })) :=
  ⟨⟨Or.inl rfl, by decide⟩,
   C3_torque_transition_sync_amended TorqueStatus.requestedToEnable [7] []
     [⟨0, "j", ["position", "velocity"], [(1 : Rat), 2]⟩]
     [⟨0, "j", ["position"], [(10 : Rat)]⟩] (Or.inl rfl) (by decide)⟩

/-- The accumulation loop `value += row[j] * v[j]` as a closed sum. -/
theorem matVecRow_foldl (row : List Rat) : ∀ (v : List Rat) (a : Rat),
    row.length ≤ v.length →
    (row.zip v).foldl (fun acc p => acc + p.1 * p.2) a =
      a + ∑ j ∈ Finset.range row.length, row.getD j 0 * v.getD j 0 := by
  induction row with
  | nil => intro v a h; simp
  | cons r rs ih =>
    intro v a h
    cases v with
    | nil => simp at h
    | cons w ws =>
      simp only [List.zip_cons_cons, List.foldl_cons]
      rw [ih ws (a + r * w) (by simpa using h)]
      simp only [List.length_cons]
      rw [Finset.sum_range_succ']
      simp only [List.getD_cons_succ, List.getD_cons_zero]
      ring

/-- One output slot of the kinematic accumulation equals the formula
`Σ_j row[j] * v[j]`. -/
theorem matVecRow_eq_sum (row v : List Rat) (h : row.length ≤ v.length) :
    matVecRow row v = ∑ j ∈ Finset.range row.length, row.getD j 0 * v.getD j 0 := by
  have h2 := matVecRow_foldl row v 0 h
  simpa [matVecRow] using h2

/-- The matrix-vector product computed by the kinematic loops equals the
row-wise sum formula. -/
theorem matVec_eq_map_sum (M : List (List Rat)) (v : List Rat)
    (h : ∀ row ∈ M, row.length ≤ v.length) :
    matVec M v = M.map (fun row => ∑ j ∈ Finset.range row.length,
      row.getD j 0 * v.getD j 0) := by
  unfold matVec
  exact List.map_congr_left (fun row hr => matVecRow_eq_sum row v (h row hr))

/-- Claim C8: `CalcTransmissionToJoint` computes
`joint[i] = Σ_j TtoJ[i][j] * transmission[j]` independently on the
position, velocity and effort channels with the same matrix, and
`CalcJointToTransmission` computes the same formula with the `JtoT`
matrix on the command channel; each channel's output is a deterministic
function of the matrices and that channel's source vector alone (changing
the other channels leaves it untouched), with no hidden state. -/
theorem C8_kinematic_mapping (M Mjt : List (List Rat))
    (pos vel eff cmd pos2 vel2 eff2 : List Rat)
    (hp : ∀ row ∈ M, row.length ≤ pos.length)
    (hv : ∀ row ∈ M, row.length ≤ vel.length)
    (he : ∀ row ∈ M, row.length ≤ eff.length)
    (hc : ∀ row ∈ Mjt, row.length ≤ cmd.length) :
    ((DynamixelHardware.CalcTransmissionToJoint M pos vel eff).1 =
       M.map (fun row => ∑ j ∈ Finset.range row.length,
         row.getD j 0 * pos.getD j 0)) ∧
    ((DynamixelHardware.CalcTransmissionToJoint M pos vel eff).2.1 =
       M.map (fun row => ∑ j ∈ Finset.range row.length,
         row.getD j 0 * vel.getD j 0)) ∧
    ((DynamixelHardware.CalcTransmissionToJoint M pos vel eff).2.2 =
       M.map (fun row => ∑ j ∈ Finset.range row.length,
         row.getD j 0 * eff.getD j 0)) ∧
    (DynamixelHardware.CalcJointToTransmission Mjt cmd =
       Mjt.map (fun row => ∑ j ∈ Finset.range row.length,
         row.getD j 0 * cmd.getD j 0)) ∧
    ((DynamixelHardware.CalcTransmissionToJoint M pos vel2 eff2).1 =
       (DynamixelHardware.CalcTransmissionToJoint M pos vel eff).1) ∧
    ((DynamixelHardware.CalcTransmissionToJoint M pos2 vel eff2).2.1 =
       (DynamixelHardware.CalcTransmissionToJoint M pos vel eff).2.1) ∧
    ((DynamixelHardware.CalcTransmissionToJoint M pos2 vel2 eff).2.2 =
       (DynamixelHardware.CalcTransmissionToJoint M pos vel eff).2.2) :=
  ⟨matVec_eq_map_sum M pos hp, matVec_eq_map_sum M vel hv,
   matVec_eq_map_sum M eff he, matVec_eq_map_sum Mjt cmd hc, rfl, rfl, rfl⟩

/-- Claim C8, witness: the theorem at a concrete 2x2 matrix and concrete
channel vectors. -/
theorem C8_kinematic_mapping_witness :
    (∀ row ∈ [[(1 : Rat), 2], [3, 4]], row.length ≤ 2) ∧
    ((DynamixelHardware.CalcTransmissionToJoint [[(1 : Rat), 2], [3, 4]]
        [5, 6] [7, 8] [9, 10]).1 =
      [[(1 : Rat), 2], [3, 4]].map (fun row => ∑ j ∈ Finset.range row.length,
        row.getD j 0 * [(5 : Rat), 6].getD j 0)) :=
  ⟨by decide,
   (C8_kinematic_mapping [[(1 : Rat), 2], [3, 4]] [[(1 : Rat), 2], [3, 4]]
     [5, 6] [7, 8] [9, 10] [5, 6] [5, 6] [7, 8] [9, 10]
     (by decide) (by decide) (by decide) (by decide)).1⟩
